import Mathlib

/-!
Verification of the metadata-reconciliation tool in `src/main.py` (video_ai).

Shallow embedding conventions:
* Python floats are modelled as exact rationals (`ℚ`).
* Untyped JSON leaf values (as handed over by the probing tool) are modelled by
  `JValue`; Python's `int(...)` / `float(...)` coercions become the partial
  functions `pyInt` / `pyFloat` (returning `none` where Python raises).
* `pathlib.Path` values are modelled as strings.
* The two external collaborators (TinyTag and ffprobe) are oracles recorded in
  an `Env`: `none` models the collaborator raising an error.
* The outcome of `get_video_metadata` is an `ExtractResult` (a distinguished
  file-not-found error, a validated record, a `None` return, or an exception
  escaping the function), paired with the list of external tools invoked.
-/

/-- Untyped JSON leaf value as delivered by the probing tool. -/
inductive JValue where
  | jstr : String → JValue
  | jint : ℤ → JValue
  | jrat : ℚ → JValue
deriving DecidableEq

/-- Numeric value of a list of decimal digit characters (assumed all digits). -/
def natOfDigits (cs : List Char) : ℕ :=
  cs.foldl (fun a c => a * 10 + (c.toNat - 48)) 0

/-- `true` iff every character is an ASCII decimal digit. -/
def allDigits (cs : List Char) : Bool :=
  cs.all Char.isDigit

/-- Parse a non-empty all-digit character list to a natural number. -/
def parseNatDigits (cs : List Char) : Option ℕ :=
  if cs.isEmpty then none
  else if allDigits cs then some (natOfDigits cs) else none

/-- Python `int(s)` on a string: optional sign followed by decimal digits. -/
def pyIntOfChars : List Char → Option ℤ
  | '-' :: rest => (parseNatDigits rest).map fun n => -(n : ℤ)
  | '+' :: rest => (parseNatDigits rest).map fun n => (n : ℤ)
  | cs => (parseNatDigits cs).map fun n => (n : ℤ)

/-- Python `int(s)` on a string. -/
def pyIntOfString (s : String) : Option ℤ :=
  pyIntOfChars s.toList

/-- Unsigned decimal literal: digits with at most one dot, at least one digit. -/
def parseUnsignedDecimal (cs : List Char) : Option ℚ :=
  if cs.contains '.' then
    let ip := cs.takeWhile (fun c => ¬ c = '.')
    let fp := (cs.dropWhile (fun c => ¬ c = '.')).drop 1
    if fp.contains '.' then none
    else if ip.isEmpty && fp.isEmpty then none
    else if allDigits ip && allDigits fp then
      some ((natOfDigits ip : ℚ) + (natOfDigits fp : ℚ) / (10 : ℚ) ^ fp.length)
    else none
  else (parseNatDigits cs).map fun n => (n : ℚ)

/-- Python `float(s)` on a string: optional sign, then a decimal literal. -/
def pyFloatOfString (s : String) : Option ℚ :=
  match s.toList with
  | '-' :: rest => (parseUnsignedDecimal rest).map fun q => -q
  | '+' :: rest => parseUnsignedDecimal rest
  | cs => parseUnsignedDecimal cs

/-- Truncation toward zero, matching Python `int(float)`. -/
def intTrunc (q : ℚ) : ℤ :=
  if 0 ≤ q then ⌊q⌋ else -⌊-q⌋

/-- Python `int(v)` on an untyped JSON value; `none` models a raised error. -/
def pyInt : JValue → Option ℤ
  | .jstr s => pyIntOfString s
  | .jint n => some n
  | .jrat q => some (intTrunc q)

/-- Python `float(v)` on an untyped JSON value; `none` models a raised error. -/
def pyFloat : JValue → Option ℚ
  | .jstr s => pyFloatOfString s
  | .jint n => some (n : ℚ)
  | .jrat q => some q

/-- Python `%` on floats with a positive right operand. -/
def pymod (a b : ℚ) : ℚ :=
  a - b * ⌊a / b⌋

/-- Python `round` on floats: round to nearest, ties to even. -/
def pyRound (q : ℚ) : ℤ :=
  let f : ℤ := ⌊q⌋
  let frac : ℚ := q - (f : ℚ)
  if frac < 1 / 2 then f
  else if 1 / 2 < frac then f + 1
  else if Int.emod f 2 = 0 then f else f + 1

/-- Python `f"{n:02d}"`: zero-pad to width two (a sign counts toward width). -/
def pyFormat02d (n : ℤ) : String :=
  if 0 ≤ n ∧ n < 10 then "0" ++ toString n else toString n

/-- `_convert_duration` from `src/main.py`: seconds to an `HH:MM:SS` string. -/
def convert_duration (seconds : ℚ) : String :=
  let hours : ℤ := ⌊seconds / 3600⌋
  let minutes : ℤ := ⌊pymod seconds 3600 / 60⌋
  let seconds_remainder : ℤ := pyRound (pymod seconds 60)
  pyFormat02d hours ++ ":" ++ pyFormat02d minutes ++ ":" ++ pyFormat02d seconds_remainder

example : pyIntOfString "30000" = some 30000 := by decide
example : pyIntOfString "abc" = none := by decide
example : pyIntOfString "-12" = some (-12) := by decide
example : pyIntOfString "" = none := by decide
example : pyFloatOfString "0" = some ((0 : ℕ) : ℚ) := by decide
example : (pyFloatOfString "42.5").isSome = true := by decide
example : pyFloatOfString "12kb" = none := by decide

/-- Splitting a character list on `/`, as Python `str.split("/")`. -/
def splitOnSlash : List Char → List (List Char)
  | [] => [[]]
  | c :: cs =>
    let r := splitOnSlash cs
    if c = '/' then [] :: r
    else
      match r with
      | h :: t => (c :: h) :: t
      | [] => [[c]]

example : splitOnSlash "0/0".toList = [['0'], ['0']] := by decide
example : splitOnSlash "N/A".toList = [['N'], ['A']] := by decide
example : splitOnSlash "30".toList = [['3', '0']] := by decide

/-- TinyTag result object (`None` fields model absent tags). -/
structure TinyTagData where
  title : Option String := none
  artist : Option String := none
  year : Option String := none
  duration : Option ℚ := none
deriving DecidableEq

/-- One entry of the probing tool's `streams` array; `none` models an absent key. -/
structure ProbeStream where
  codec_type : Option String := none
  codec_name : Option String := none
  profile : Option String := none
  width : Option ℤ := none
  height : Option ℤ := none
  bit_rate : Option JValue := none
  avg_frame_rate : Option String := none
  pix_fmt : Option String := none
  sample_rate : Option JValue := none
  channels : Option ℤ := none
  channel_layout : Option String := none
deriving DecidableEq

/-- The probing tool's `format` object; `none`/`[]` model absent keys. -/
structure FormatInfo where
  duration : Option JValue := none
  bit_rate : Option JValue := none
  tags : List (String × JValue) := []
deriving DecidableEq

/-- The probing tool's whole JSON document. -/
structure ProbeData where
  format : Option FormatInfo := none
  streams : List ProbeStream := []
deriving DecidableEq

/-- Schema `VideoStreamMetadata` from `src/main.py`. -/
structure VideoStreamMetadata where
  codec_name : String
  profile : String
  width : ℤ
  height : ℤ
  bit_rate : ℤ
  avg_frame_rate : ℚ
  pixel_format : String
deriving DecidableEq

/-- Schema `AudioStreamMetadata` from `src/main.py`. -/
structure AudioStreamMetadata where
  codec_name : String
  sample_rate : ℤ
  channels : ℤ
  bit_rate : ℤ
  channel_layout : String
deriving DecidableEq

/-- Schema `ContentCreatorMetadata` from `src/main.py`. -/
structure ContentCreatorMetadata where
  file_path : String
  filename : String
  filesize_bytes : ℤ
  title : Option String := none
  artist : Option String := none
  year : Option String := none
  duration_seconds : ℚ
  duration_friendly : String
  overall_bitrate_kbps : ℤ
  video_stream : Option VideoStreamMetadata := none
  audio_stream : Option AudioStreamMetadata := none
  raw_tags : List (String × JValue) := []
deriving DecidableEq

/-- Body of the `codec_type == "video"` branch of the stream loop in
`get_video_metadata` (lines 157-171 of `src/main.py`): builds a
`VideoStreamMetadata` from one stream entry, `none` modelling any caught
exception (bad frame-rate string, bad bit-rate coercion). -/
def parseVideoStream (stream : ProbeStream) : Option VideoStreamMetadata :=
  let afr := stream.avg_frame_rate.getD "0/1"
  match splitOnSlash afr.toList with
  | [numChars, denChars] =>
    match pyIntOfChars numChars, pyIntOfChars denChars with
    | some num, some den =>
      match pyInt (stream.bit_rate.getD (.jint 0)) with
      | some br =>
        some
          { codec_name := stream.codec_name.getD "N/A"
            profile := stream.profile.getD "N/A"
            width := stream.width.getD 0
            height := stream.height.getD 0
            bit_rate := br
            avg_frame_rate := if ¬ den = 0 then (num : ℚ) / (den : ℚ) else 0
            pixel_format := stream.pix_fmt.getD "N/A" }
      | none => none
    | _, _ => none
  | _ => none

/-- Body of the `codec_type == "audio"` branch of the stream loop in
`get_video_metadata` (lines 174-181 of `src/main.py`). -/
def parseAudioStream (stream : ProbeStream) : Option AudioStreamMetadata :=
  match pyInt (stream.sample_rate.getD (.jint 0)), pyInt (stream.bit_rate.getD (.jint 0)) with
  | some sr, some br =>
    some
      { codec_name := stream.codec_name.getD "N/A"
        sample_rate := sr
        channels := stream.channels.getD 0
        bit_rate := br
        channel_layout := stream.channel_layout.getD "N/A" }
  | _, _ => none

/-- One iteration of the stream loop of `get_video_metadata` (lines 155-186):
a video (resp. audio) stream is parsed only while the video (resp. audio)
accumulator is still unset, and a parse error leaves the accumulator as it was. -/
def streamStep (acc : Option VideoStreamMetadata × Option AudioStreamMetadata)
    (stream : ProbeStream) : Option VideoStreamMetadata × Option AudioStreamMetadata :=
  if stream.codec_type = some "video" ∧ acc.1 = none then
    match parseVideoStream stream with
    | some v => (some v, acc.2)
    | none => acc
  else if stream.codec_type = some "audio" ∧ acc.2 = none then
    match parseAudioStream stream with
    | some a => (acc.1, some a)
    | none => acc
  else acc

/-- The whole stream loop of `get_video_metadata`. -/
def processStreams (streams : List ProbeStream) :
    Option VideoStreamMetadata × Option AudioStreamMetadata :=
  streams.foldl streamStep (none, none)

/-- `_extract_ffprobe_data` from `src/main.py`: a probing-tool failure is
logged and an empty document is returned in its place. -/
def extract_ffprobe_data (probeResult : Option ProbeData) : ProbeData :=
  match probeResult with
  | some d => d
  | none => {}

/-- The external collaborators invoked during one call. -/
inductive ExternalTool where
  | tagReader
  | probeTool
deriving DecidableEq

/-- Input world for one invocation of `get_video_metadata`: the path check and
the answers of the two external collaborators (`none` = the collaborator
raised). -/
structure Env where
  pathExists : Bool
  filePath : String
  fileName : String
  fileSize : ℤ
  tag : Option TinyTagData := none
  probe : Option ProbeData := none
deriving DecidableEq

/-- Observable outcome of `get_video_metadata`: the dedicated
file-not-found error raised at lines 130-133, a validated record, a `None`
return (line 195), or an exception escaping the function (uncaught `int`
coercion / validation error inside the `else:` block, line 204-217). -/
inductive ExtractResult where
  | fileNotFoundError
  | record : ContentCreatorMetadata → ExtractResult
  | noRecord
  | uncaughtException
deriving DecidableEq

/-- `get_video_metadata` from `src/main.py`, paired with the list of external
tools that were invoked during the call. -/
def get_video_metadata (env : Env) : ExtractResult × List ExternalTool :=
  if env.pathExists = false then (.fileNotFoundError, [])
  else
    let invoked : List ExternalTool := [.tagReader, .probeTool]
    let tag := env.tag
    let ffprobe_data := extract_ffprobe_data env.probe
    let format_info := ffprobe_data.format.getD {}
    let streams := processStreams ffprobe_data.streams
    match pyFloat (format_info.duration.getD (.jrat 0)) with
    | none => (.noRecord, invoked)
    | some ffprobe_duration =>
      let overall_duration : ℚ :=
        if 0 < ffprobe_duration then ffprobe_duration
        else
          match tag with
          | some t =>
            match t.duration with
            | some d => if ¬ d = 0 then d else 0
            | none => 0
          | none => 0
      match pyInt (format_info.bit_rate.getD (.jint 0)) with
      | none => (.uncaughtException, invoked)
      | some bitrate =>
        (.record
          { file_path := env.filePath
            filename := env.fileName
            filesize_bytes := env.fileSize
            title := tag.bind TinyTagData.title
            artist := tag.bind TinyTagData.artist
            year := tag.bind TinyTagData.year
            duration_seconds := overall_duration
            duration_friendly := convert_duration overall_duration
            overall_bitrate_kbps := Int.fdiv bitrate 1000
            video_stream := streams.1
            audio_stream := streams.2
            raw_tags := format_info.tags }, invoked)

/-- The `duration_seconds` of a produced record, when one was produced. -/
def ExtractResult.durationOf : ExtractResult → Option ℚ
  | .record m => some m.duration_seconds
  | _ => none

/-- The `overall_bitrate_kbps` of a produced record, when one was produced. -/
def ExtractResult.bitrateOf : ExtractResult → Option ℤ
  | .record m => some m.overall_bitrate_kbps
  | _ => none

/-- The `video_stream` of a produced record, when one was produced. -/
def ExtractResult.videoOf : ExtractResult → Option (Option VideoStreamMetadata)
  | .record m => some m.video_stream
  | _ => none

/-- The `audio_stream` of a produced record, when one was produced. -/
def ExtractResult.audioOf : ExtractResult → Option (Option AudioStreamMetadata)
  | .record m => some m.audio_stream
  | _ => none

/-- Whether a record was produced. -/
def ExtractResult.isRecord : ExtractResult → Bool
  | .record _ => true
  | _ => false

/-- The `format` section effectively used by `get_video_metadata` for `env`. -/
def formatInfoOf (env : Env) : FormatInfo :=
  (extract_ffprobe_data env.probe).format.getD {}

/-- The video sub-record one stream entry contributes when reached with an
unset video accumulator: the parse result for a video-typed entry, nothing
for any other entry. -/
def videoCandidate (stream : ProbeStream) : Option VideoStreamMetadata :=
  if stream.codec_type = some "video" then parseVideoStream stream else none

/-- The audio counterpart of `videoCandidate`. -/
def audioCandidate (stream : ProbeStream) : Option AudioStreamMetadata :=
  if stream.codec_type = some "audio" then parseAudioStream stream else none

theorem streamStep_eq (a : Option VideoStreamMetadata) (b : Option AudioStreamMetadata)
    (s : ProbeStream) :
    streamStep (a, b) s = (a.or (videoCandidate s), b.or (audioCandidate s)) := by
  by_cases hv : s.codec_type = some "video" ∧ a = none
  · obtain ⟨h1, h2⟩ := hv
    subst h2
    rw [streamStep, if_pos ⟨h1, rfl⟩, videoCandidate, if_pos h1, audioCandidate,
      if_neg (by rw [h1]; simp)]
    cases hp : parseVideoStream s <;> simp
  · by_cases ha : s.codec_type = some "audio" ∧ b = none
    · obtain ⟨h1, h2⟩ := ha
      subst h2
      rw [streamStep, if_neg hv, if_pos ⟨h1, rfl⟩, audioCandidate, if_pos h1, videoCandidate,
        if_neg (by rw [h1]; simp)]
      cases hp : parseAudioStream s <;> simp
    · rw [streamStep, if_neg hv, if_neg ha, videoCandidate, audioCandidate]
      by_cases h1 : s.codec_type = some "video"
      · obtain ⟨x, rfl⟩ : ∃ x, a = some x := by
          cases hacc : a with
          | none => exact absurd ⟨h1, hacc⟩ hv
          | some x => exact ⟨x, rfl⟩
        rw [if_pos h1, if_neg (by rw [h1]; simp)]
        simp
      · rw [if_neg h1]
        by_cases h4 : s.codec_type = some "audio"
        · obtain ⟨y, rfl⟩ : ∃ y, b = some y := by
            cases hacc : b with
            | none => exact absurd ⟨h4, hacc⟩ ha
            | some y => exact ⟨y, rfl⟩
          rw [if_pos h4]
          simp
        · rw [if_neg h4]
          simp

theorem foldl_streamStep (ss : List ProbeStream) :
    ∀ acc, ss.foldl streamStep acc =
      (acc.1.or (ss.findSome? videoCandidate), acc.2.or (ss.findSome? audioCandidate)) := by
  induction ss with
  | nil => intro acc; simp
  | cons s ss ih =>
    intro acc
    have hcons : ∀ {α : Type} (f : ProbeStream → Option α),
        (s :: ss).findSome? f = (f s).or (ss.findSome? f) := by
      intro α f
      rw [List.findSome?_cons]
      cases f s <;> simp
    rcases acc with ⟨a, b⟩
    rw [List.foldl_cons, streamStep_eq, ih, hcons videoCandidate, hcons audioCandidate,
      Option.or_assoc, Option.or_assoc]

/-- C10: the stream loop keeps, for each of the two stream types, the first
entry of that declared type whose processing succeeds: an earlier same-type
entry whose processing raises (and is caught) leaves the sub-record unset, and
a later well-formed entry of that type populates it.  Formally, the loop's
result is the first non-`none` value of `videoCandidate` (resp.
`audioCandidate`) over the streams sequence in order. -/
theorem c10_first_successfully_parsed_stream_kept (streams : List ProbeStream) :
    processStreams streams =
      (streams.findSome? videoCandidate, streams.findSome? audioCandidate) := by
  rw [processStreams, foldl_streamStep]
  simp

/-- First stream entry of the C7 counterexample: declared video type, but its
bit-rate coercion fails, so the loop catches the error and keeps nothing. -/
def c7FirstVideo : ProbeStream :=
  { codec_type := some "video", codec_name := some "h264",
    bit_rate := some (.jstr "not-a-number") }

/-- Second stream entry of the C7 counterexample: well-formed video entry. -/
def c7SecondVideo : ProbeStream :=
  { codec_type := some "video", codec_name := some "vp9", width := some 1920,
    height := some 1080, bit_rate := some (.jint 5000000),
    avg_frame_rate := some "30/1", pix_fmt := some "yuv420p" }

/-- C7 counterexample: a streams sequence with two video-typed entries in
which the sub-record is populated from the SECOND entry (its codec name
`"vp9"`), not the first occurrence (`"h264"`) — so "only the first occurrence
of that type populates the sub-record; every subsequent same-type stream is
ignored" fails on this input. -/
theorem c7_counterexample :
    c7FirstVideo.codec_type = some "video" ∧
    c7SecondVideo.codec_type = some "video" ∧
    c7FirstVideo.codec_name = some "h264" ∧
    ((processStreams [c7FirstVideo, c7SecondVideo]).1).map VideoStreamMetadata.codec_name
      = some "vp9" := by
  decide

/-- C7 (amended): when the first video-typed entry of the streams sequence is
itself well-formed (its processing succeeds), it alone populates the video
sub-record and every subsequent video-typed stream is ignored. -/
theorem c7_first_occurrence_populates_when_wellformed
    (pre : List ProbeStream) (s : ProbeStream) (post : List ProbeStream)
    (v : VideoStreamMetadata)
    (hpre : ∀ x ∈ pre, ¬ x.codec_type = some "video")
    (hs : s.codec_type = some "video")
    (hv : parseVideoStream s = some v) :
    (processStreams (pre ++ s :: post)).1 = some v := by
  rw [processStreams, foldl_streamStep]
  simp only [Option.none_or]
  rw [List.findSome?_append]
  have h1 : pre.findSome? videoCandidate = none := by
    rw [List.findSome?_eq_none_iff]
    intro x hx
    rw [videoCandidate, if_neg (hpre x hx)]
  have h2 : videoCandidate s = some v := by
    rw [videoCandidate, if_pos hs, hv]
  rw [h1, List.findSome?_cons, h2]
  simp

/-- An audio-typed entry preceding the video entries in the C7 witness. -/
def c7WitnessAudio : ProbeStream :=
  { codec_type := some "audio", codec_name := some "aac" }

/-- A well-formed video-typed entry for the C7 witness. -/
def c7WitnessVideo : ProbeStream :=
  { codec_type := some "video", codec_name := some "h264",
    avg_frame_rate := some "0/0" }

/-- What the C7 witness video entry parses to. -/
def c7WitnessVideoParsed : VideoStreamMetadata :=
  { codec_name := "h264", profile := "N/A", width := 0, height := 0,
    bit_rate := 0, avg_frame_rate := 0, pixel_format := "N/A" }

theorem c7_witness :
    (processStreams [c7WitnessAudio, c7WitnessVideo, c7WitnessVideo]).1
      = some c7WitnessVideoParsed :=
  c7_first_occurrence_populates_when_wellformed [c7WitnessAudio] c7WitnessVideo
    [c7WitnessVideo] c7WitnessVideoParsed (by decide) (by decide) (by decide)

/-- The duration the `else:` block of lines 196-203 settles on, given the tag
reader outcome and the parsed probe duration. -/
def codeOverallDuration (tag : Option TinyTagData) (ffprobe_duration : ℚ) : ℚ :=
  if 0 < ffprobe_duration then ffprobe_duration
  else
    match tag with
    | some t =>
      match t.duration with
      | some d => if ¬ d = 0 then d else 0
      | none => 0
    | none => 0

/-- The record assembled at lines 204-217, as a function of the environment,
the reconciled duration and the coerced format bit rate. -/
def assembledRecord (env : Env) (overall_duration : ℚ) (bitrate : ℤ) :
    ContentCreatorMetadata :=
  { file_path := env.filePath
    filename := env.fileName
    filesize_bytes := env.fileSize
    title := env.tag.bind TinyTagData.title
    artist := env.tag.bind TinyTagData.artist
    year := env.tag.bind TinyTagData.year
    duration_seconds := overall_duration
    duration_friendly := convert_duration overall_duration
    overall_bitrate_kbps := Int.fdiv bitrate 1000
    video_stream := (processStreams (extract_ffprobe_data env.probe).streams).1
    audio_stream := (processStreams (extract_ffprobe_data env.probe).streams).2
    raw_tags := (formatInfoOf env).tags }

theorem get_video_metadata_eq (env : Env) (h : env.pathExists = true) :
    get_video_metadata env =
      match pyFloat ((formatInfoOf env).duration.getD (.jrat 0)) with
      | none => (.noRecord, [.tagReader, .probeTool])
      | some fd =>
        match pyInt ((formatInfoOf env).bit_rate.getD (.jint 0)) with
        | none => (.uncaughtException, [.tagReader, .probeTool])
        | some b => (.record (assembledRecord env (codeOverallDuration env.tag fd) b),
            [.tagReader, .probeTool]) := by
  rw [get_video_metadata, if_neg (by rw [h]; simp)]
  rfl

/-- C5: a missing input path aborts the operation with the dedicated
file-not-found error before either external tool is invoked (the invocation
trace is empty), and no other input ever produces that error. -/
theorem c5_missing_path_aborts_before_tools (env : Env) :
    (env.pathExists = false → get_video_metadata env = (.fileNotFoundError, [])) ∧
    (env.pathExists = true → ¬ (get_video_metadata env).1 = .fileNotFoundError) := by
  constructor
  · intro h
    rw [get_video_metadata, if_pos h]
  · intro h
    rw [get_video_metadata_eq env h]
    cases pyFloat ((formatInfoOf env).duration.getD (.jrat 0)) with
    | none => simp
    | some fd =>
      cases pyInt ((formatInfoOf env).bit_rate.getD (.jint 0)) with
      | none => simp
      | some b => simp

/-- A non-existing input path. -/
def c5Env : Env :=
  { pathExists := false, filePath := "/videos/missing.mp4",
    fileName := "missing.mp4", fileSize := 0 }

theorem c5_witness : get_video_metadata c5Env = (.fileNotFoundError, []) :=
  (c5_missing_path_aborts_before_tools c5Env).1 rfl

/-- C6: when the probing tool fails (so `_extract_ffprobe_data` substitutes an
empty document) and the tag reader succeeds, a record is still produced, with
both stream sub-records absent, overall bitrate `0`, and the duration taken
from the tag reader. -/
theorem c6_probe_failure_still_produces_record (env : Env) (t : TinyTagData)
    (h : env.pathExists = true) (hp : env.probe = none) (ht : env.tag = some t) :
    ((get_video_metadata env).1).isRecord = true ∧
    ((get_video_metadata env).1).videoOf = some none ∧
    ((get_video_metadata env).1).audioOf = some none ∧
    ((get_video_metadata env).1).bitrateOf = some 0 ∧
    (∀ d, t.duration = some d → ((get_video_metadata env).1).durationOf = some d) := by
  have hfmt : formatInfoOf env = {} := by
    rw [formatInfoOf, hp]
    rfl
  have hrw := get_video_metadata_eq env h
  rw [hfmt, ht] at hrw
  refine ⟨?_, ?_, ?_, ?_, ?_⟩
  · rw [hrw]
    rfl
  · rw [hrw]
    show some ((processStreams (extract_ffprobe_data env.probe).streams).1) = some none
    rw [hp]
    rfl
  · rw [hrw]
    show some ((processStreams (extract_ffprobe_data env.probe).streams).2) = some none
    rw [hp]
    rfl
  · rw [hrw]
    rfl
  · intro d hd
    rw [hrw]
    show some (codeOverallDuration (some t) 0) = some d
    rw [codeOverallDuration, if_neg (by simp), hd]
    show some (if ¬ d = 0 then d else 0) = some d
    by_cases hd0 : d = 0
    · subst hd0
      simp
    · rw [if_pos hd0]

/-- Tag reader answer used by the C6 witness: duration 42.5 seconds. -/
def c6Tag : TinyTagData :=
  { title := some "Clip", artist := some "Creator", year := some "2024",
    duration := some (mkRat 85 2) }

/-- Environment of the C6 witness: the path exists, the probing tool raised,
the tag reader succeeded. -/
def c6Env : Env :=
  { pathExists := true, filePath := "/videos/clip.mp4", fileName := "clip.mp4",
    fileSize := 2048, tag := some c6Tag, probe := none }

theorem c6_witness :
    ((get_video_metadata c6Env).1).isRecord = true ∧
    ((get_video_metadata c6Env).1).videoOf = some none ∧
    ((get_video_metadata c6Env).1).audioOf = some none ∧
    ((get_video_metadata c6Env).1).bitrateOf = some 0 ∧
    ((get_video_metadata c6Env).1).durationOf = some (mkRat 85 2) := by
  obtain ⟨h1, h2, h3, h4, h5⟩ :=
    c6_probe_failure_still_produces_record c6Env c6Tag rfl rfl rfl
  exact ⟨h1, h2, h3, h4, h5 (mkRat 85 2) rfl⟩

/-- The duration C1 claims, in the claim's own words: the probe tool's
format-level duration parsed as float when that parsed value is strictly
greater than zero; otherwise the tag reader's duration when the tag reader
succeeded and reports a non-null duration; otherwise 0. -/
def claimedDuration (env : Env) : ℚ :=
  match pyFloat ((formatInfoOf env).duration.getD (.jrat 0)) with
  | some fd =>
    if 0 < fd then fd
    else
      match env.tag with
      | some t => t.duration.getD 0
      | none => 0
  | none => 0

/-- C1: whenever `get_video_metadata` produces a record on an existing path,
its `duration_seconds` is exactly the claimed reconciliation: the parsed probe
duration when strictly positive, else the tag reader's duration when present,
else 0. -/
theorem c1_reconciled_duration (env : Env) (d : ℚ)
    (h : env.pathExists = true)
    (hd : ((get_video_metadata env).1).durationOf = some d) :
    d = claimedDuration env := by
  rw [get_video_metadata_eq env h] at hd
  cases hf : pyFloat ((formatInfoOf env).duration.getD (.jrat 0)) with
  | none =>
    rw [hf] at hd
    exact absurd hd (by simp [ExtractResult.durationOf])
  | some fd =>
    rw [hf] at hd
    cases hb : pyInt ((formatInfoOf env).bit_rate.getD (.jint 0)) with
    | none =>
      rw [hb] at hd
      exact absurd hd (by simp [ExtractResult.durationOf])
    | some b =>
      rw [hb] at hd
      have hd' : codeOverallDuration env.tag fd = d := by
        have : some (codeOverallDuration env.tag fd) = some d := hd
        exact Option.some.inj this
      rw [← hd']
      simp only [claimedDuration, hf, codeOverallDuration]
      by_cases hpos : 0 < fd
      · rw [if_pos hpos, if_pos hpos]
      · rw [if_neg hpos, if_neg hpos]
        cases env.tag with
        | none => rfl
        | some t =>
          show (match t.duration with
            | some dd => if ¬ dd = 0 then dd else 0
            | none => 0) = t.duration.getD 0
          cases t.duration with
          | none => rfl
          | some dd =>
            show (if ¬ dd = 0 then dd else 0) = (some dd).getD 0
            by_cases hdd : dd = 0
            · subst hdd
              simp
            · rw [if_pos hdd]
              rfl

/-- Environment of the C1 witness, following the spec's own example: probe
format duration `"0"`, tag reader succeeding with duration 42.5. -/
def c1Env : Env :=
  { pathExists := true, filePath := "/videos/talk.mp4", fileName := "talk.mp4",
    fileSize := 4096,
    tag := some { duration := some (mkRat 85 2) },
    probe := some { format := some { duration := some (.jstr "0") } } }

theorem c1_witness : mkRat 85 2 = claimedDuration c1Env :=
  c1_reconciled_duration c1Env (mkRat 85 2) rfl (by decide)

/-- Failing input for C2: the path exists, the probe document carries a
non-numeric format-level bit rate, so the `int(...)` coercion inside the
record construction (line 213 of `src/main.py`) raises. -/
def c2Fmt : FormatInfo :=
  { duration := some (.jstr "10"), bit_rate := some (.jstr "abc") }

def c2Env : Env :=
  { pathExists := true, filePath := "/videos/clip.mkv", fileName := "clip.mkv",
    fileSize := 1024, tag := none, probe := some { format := some c2Fmt } }

/-- C2 (code bug): on `c2Env` the final mapping/type-coercion of the assembled
record fails, and the failure escapes `get_video_metadata` as an exception
instead of being logged and converted into a `None` return.  The `except`
handler's own comment (lines 191-194 of `src/main.py`) says it catches errors
"during final Pydantic validation/mapping", but the record construction sits
in the `else:` block of that `try`, which the handler does not cover. -/
theorem c2_validation_failure_escapes :
    (get_video_metadata c2Env).1 = .uncaughtException := by
  decide

/-- Counterexample input for C3: a non-numeric format-level bit rate. -/
def c3CexFmt : FormatInfo :=
  { duration := some (.jstr "7"), bit_rate := some (.jstr "12kb") }

def c3CexEnv : Env :=
  { pathExists := true, filePath := "/videos/raw.avi", fileName := "raw.avi",
    fileSize := 512, tag := none, probe := some { format := some c3CexFmt } }

/-- C3 counterexample: with format-level bit rate `"12kb"` (present but
non-numeric) the operation does not produce any record whose
`overall_bitrate_kbps` is 0 — instead the coercion error escapes the
function, refuting "equals 0 whenever that field is absent or non-numeric
(with no exception escaping in the non-numeric case)". -/
theorem c3_counterexample :
    (formatInfoOf c3CexEnv).bit_rate = some (.jstr "12kb") ∧
    pyInt (.jstr "12kb") = none ∧
    (get_video_metadata c3CexEnv).1 = .uncaughtException := by
  decide

/-- C3 (amended): whenever a record is produced, its `overall_bitrate_kbps`
is the format-level bit-rate field — defaulted to the integer 0 when absent —
coerced to integer and floor-divided by 1000 (so 0 when the field is absent);
when the field is present but non-numeric, no record is produced at all: the
coercion error escapes the function (unless the duration parse already failed,
in which case the function returned no record earlier). -/
theorem c3_bitrate_from_format (env : Env) (h : env.pathExists = true) :
    (∀ k, ((get_video_metadata env).1).bitrateOf = some k →
        ∃ b, pyInt ((formatInfoOf env).bit_rate.getD (.jint 0)) = some b
          ∧ k = Int.fdiv b 1000
          ∧ ((formatInfoOf env).bit_rate = none → k = 0)) ∧
    (pyInt ((formatInfoOf env).bit_rate.getD (.jint 0)) = none →
      (get_video_metadata env).1 = .noRecord ∨
      (get_video_metadata env).1 = .uncaughtException) := by
  have hrw := get_video_metadata_eq env h
  constructor
  · intro k hk
    rw [hrw] at hk
    cases hf : pyFloat ((formatInfoOf env).duration.getD (.jrat 0)) with
    | none =>
      rw [hf] at hk
      exact absurd hk (by simp [ExtractResult.bitrateOf])
    | some fd =>
      rw [hf] at hk
      cases hb : pyInt ((formatInfoOf env).bit_rate.getD (.jint 0)) with
      | none =>
        rw [hb] at hk
        exact absurd hk (by simp [ExtractResult.bitrateOf])
      | some b =>
        rw [hb] at hk
        have hk' : Int.fdiv b 1000 = k := by
          have h2 : some (Int.fdiv b 1000) = some k := hk
          exact Option.some.inj h2
        refine ⟨b, rfl, hk'.symm, ?_⟩
        intro habs
        rw [habs] at hb
        have hb0 : (some (0 : ℤ) : Option ℤ) = some b := hb
        have hb0' : b = 0 := (Option.some.inj hb0).symm
        subst hb0'
        rw [← hk']
        rfl
  · intro hnone
    rw [hrw]
    cases hf : pyFloat ((formatInfoOf env).duration.getD (.jrat 0)) with
    | none =>
      left
      rfl
    | some fd =>
      right
      rw [hnone]

/-- Environment of the C3 witness: numeric bit rate `"128000"`. -/
def c3WitnessFmt : FormatInfo :=
  { duration := some (.jstr "10"), bit_rate := some (.jstr "128000") }

def c3WitnessEnv : Env :=
  { pathExists := true, filePath := "/videos/cast.mp4", fileName := "cast.mp4",
    fileSize := 8192, tag := none, probe := some { format := some c3WitnessFmt } }

theorem c3_witness :
    ∃ b, pyInt ((formatInfoOf c3WitnessEnv).bit_rate.getD (.jint 0)) = some b
      ∧ (128 : ℤ) = Int.fdiv b 1000
      ∧ ((formatInfoOf c3WitnessEnv).bit_rate = none → (128 : ℤ) = 0) :=
  (c3_bitrate_from_format c3WitnessEnv rfl).1 128 (by decide)

theorem pyRound_bounds (q : ℚ) : ⌊q⌋ ≤ pyRound q ∧ pyRound q ≤ ⌊q⌋ + 1 := by
  constructor <;> (simp only [pyRound]; split_ifs <;> omega)

/-- Hours of C4's claimed formula: floor of `d / 3600`, unbounded. -/
def claimHours (d : ℚ) : ℤ := ⌊d / 3600⌋

/-- Minutes of C4's claimed formula: floor of `(d mod 3600) / 60`. -/
def claimMinutes (d : ℚ) : ℤ := ⌊(d - 3600 * ⌊d / 3600⌋) / 60⌋

/-- Seconds of C4's claimed formula: `d mod 60` rounded to nearest (ties to
even, as Python's `round`). -/
def claimSeconds (d : ℚ) : ℤ := pyRound (d - 60 * ⌊d / 60⌋)

/-- C4: for every `d ≥ 0`, the duration formatter yields
`HH:MM:SS` with hours = floor(d / 3600) (non-negative and unbounded, padded
to at least two digits), minutes = floor((d mod 3600) / 60) (in `[0, 60)`,
hence exactly two digits when padded), seconds = round(d mod 60) (in
`[0, 60]`, a rounded 60 kept as-is); in particular `3725.4 ↦ "01:02:05"` and
`59.6 ↦ "00:00:60"`. -/
theorem c4_duration_formatter :
    (∀ d : ℚ, 0 ≤ d →
      convert_duration d =
        pyFormat02d (claimHours d) ++ ":" ++ pyFormat02d (claimMinutes d) ++ ":"
          ++ pyFormat02d (claimSeconds d)
        ∧ 0 ≤ claimHours d ∧ 0 ≤ claimMinutes d ∧ claimMinutes d < 60
        ∧ 0 ≤ claimSeconds d ∧ claimSeconds d ≤ 60)
    ∧ convert_duration 3725.4 = "01:02:05"
    ∧ convert_duration 59.6 = "00:00:60" := by
  refine ⟨?_, ?_, ?_⟩
  · intro d hd
    have hfr : ∀ b : ℚ, 0 < b → 0 ≤ d - b * ⌊d / b⌋ ∧ d - b * ⌊d / b⌋ < b := by
      intro b hb
      have h1 : (⌊d / b⌋ : ℚ) ≤ d / b := Int.floor_le (d / b)
      have h2 : d / b < ⌊d / b⌋ + 1 := Int.lt_floor_add_one (d / b)
      constructor
      · have := mul_le_mul_of_nonneg_left h1 hb.le
        rw [mul_div_cancel₀ d hb.ne'] at this
        linarith
      · have := mul_lt_mul_of_pos_left h2 hb
        rw [mul_div_cancel₀ d hb.ne'] at this
        linarith
    refine ⟨rfl, ?_, ?_, ?_, ?_, ?_⟩
    · exact Int.floor_nonneg.mpr (div_nonneg hd (by norm_num))
    · have h36 := hfr 3600 (by norm_num)
      exact Int.floor_nonneg.mpr (div_nonneg h36.1 (by norm_num))
    · have h36 := hfr 3600 (by norm_num)
      rw [claimMinutes, Int.floor_lt]
      rw [div_lt_iff₀ (by norm_num : (0:ℚ) < 60)]
      push_cast
      linarith [h36.2]
    · have h60 := hfr 60 (by norm_num)
      have hb := pyRound_bounds (d - 60 * ⌊d / 60⌋)
      have hfl : 0 ≤ ⌊d - 60 * ⌊d / 60⌋⌋ := Int.floor_nonneg.mpr h60.1
      rw [claimSeconds]
      omega
    · have h60 := hfr 60 (by norm_num)
      have hb := pyRound_bounds (d - 60 * ⌊d / 60⌋)
      have hfl : ⌊d - 60 * ⌊d / 60⌋⌋ < 60 := by
        rw [Int.floor_lt]
        push_cast
        linarith [h60.2]
      rw [claimSeconds]
      omega
  · have e1 : (⌊(3725.4 : ℚ) / 3600⌋ : ℤ) = 1 := by norm_num
    have e2 : pymod (3725.4 : ℚ) 3600 = 125.4 := by
      rw [pymod, e1]
      norm_num
    have e3 : (⌊pymod (3725.4 : ℚ) 3600 / 60⌋ : ℤ) = 2 := by
      rw [e2]
      norm_num
    have e4 : pymod (3725.4 : ℚ) 60 = 5.4 := by
      have h62 : (⌊(3725.4 : ℚ) / 60⌋ : ℤ) = 62 := by norm_num
      rw [pymod, h62]
      norm_num
    have e5 : pyRound (pymod (3725.4 : ℚ) 60) = 5 := by
      rw [e4]
      have h5 : (⌊(5.4 : ℚ)⌋ : ℤ) = 5 := by norm_num
      simp only [pyRound, h5]
      norm_num
    have hc : convert_duration (3725.4 : ℚ)
        = pyFormat02d ⌊(3725.4 : ℚ) / 3600⌋ ++ ":"
          ++ pyFormat02d ⌊pymod (3725.4 : ℚ) 3600 / 60⌋ ++ ":"
          ++ pyFormat02d (pyRound (pymod (3725.4 : ℚ) 60)) := rfl
    rw [hc, e1, e3, e5]
    decide
  · have e1 : (⌊(59.6 : ℚ) / 3600⌋ : ℤ) = 0 := by norm_num
    have e2 : pymod (59.6 : ℚ) 3600 = 59.6 := by
      rw [pymod, e1]
      norm_num
    have e3 : (⌊pymod (59.6 : ℚ) 3600 / 60⌋ : ℤ) = 0 := by
      rw [e2]
      norm_num
    have e4 : pymod (59.6 : ℚ) 60 = 59.6 := by
      have h0 : (⌊(59.6 : ℚ) / 60⌋ : ℤ) = 0 := by norm_num
      rw [pymod, h0]
      norm_num
    have e5 : pyRound (pymod (59.6 : ℚ) 60) = 60 := by
      rw [e4]
      have h59 : (⌊(59.6 : ℚ)⌋ : ℤ) = 59 := by norm_num
      simp only [pyRound, h59]
      norm_num
    have hc : convert_duration (59.6 : ℚ)
        = pyFormat02d ⌊(59.6 : ℚ) / 3600⌋ ++ ":"
          ++ pyFormat02d ⌊pymod (59.6 : ℚ) 3600 / 60⌋ ++ ":"
          ++ pyFormat02d (pyRound (pymod (59.6 : ℚ) 60)) := rfl
    rw [hc, e1, e3, e5]
    decide

theorem c4_witness :
    convert_duration 0 =
      pyFormat02d (claimHours 0) ++ ":" ++ pyFormat02d (claimMinutes 0) ++ ":"
        ++ pyFormat02d (claimSeconds 0) :=
  (c4_duration_formatter.1 0 le_rfl).1

/-- Stream entry of the C8 counterexample: `avg_frame_rate = "30000/1001"`
(NTSC 29.97 fps), all other fields absent. -/
def c8Stream : ProbeStream :=
  { codec_type := some "video", avg_frame_rate := some "30000/1001" }

/-- C8 counterexample: for `avg_frame_rate = "30000/1001"` the code computes
the true quotient 30000/1001 (about 29.97), which differs from the float of
the integer (floor) division of 30000 by 1001, namely 29 — so "the frame rate
is the float obtained by integer division of N by D" fails at this input. -/
theorem c8_counterexample :
    ((parseVideoStream c8Stream).map VideoStreamMetadata.avg_frame_rate).getD 0
      = (30000 : ℚ) / 1001
    ∧ ¬ (30000 : ℚ) / 1001 = ((Int.fdiv 30000 1001 : ℤ) : ℚ) := by
  constructor
  · have hsplit : splitOnSlash "30000/1001".toList
        = [['3', '0', '0', '0', '0'], ['1', '0', '0', '1']] := by decide
    have hnum : pyIntOfChars ['3', '0', '0', '0', '0'] = some 30000 := by decide
    have hden : pyIntOfChars ['1', '0', '0', '1'] = some 1001 := by decide
    have hred : ((parseVideoStream c8Stream).map VideoStreamMetadata.avg_frame_rate).getD 0
        = if ¬ (1001 : ℤ) = 0 then ((30000 : ℤ) : ℚ) / ((1001 : ℤ) : ℚ) else 0 := by
      simp only [parseVideoStream, c8Stream, hsplit, hnum, hden]
      rfl
    rw [hred, if_pos (by norm_num)]
    norm_num
  · have hfd : Int.fdiv 30000 1001 = 29 := by decide
    rw [hfd]
    norm_num

/-- C8 (amended): for every video stream whose `avg_frame_rate` field splits
as `"N/D"` with both parts parsing as integers, the computed frame rate of a
successfully parsed stream is 0 when the denominator D is zero (the code's
guard, so no division-by-zero fault) and the exact quotient N / D — true
division, not floor division — when D is non-zero. -/
theorem c8_frame_rate_guarded_true_division (s : ProbeStream) (afr : String)
    (ncs dcs : List Char) (num den : ℤ) (v : VideoStreamMetadata)
    (hafr : s.avg_frame_rate = some afr)
    (hsplit : splitOnSlash afr.toList = [ncs, dcs])
    (hnum : pyIntOfChars ncs = some num)
    (hden : pyIntOfChars dcs = some den)
    (hv : parseVideoStream s = some v) :
    v.avg_frame_rate = if den = 0 then 0 else (num : ℚ) / (den : ℚ) := by
  rw [parseVideoStream] at hv
  rw [hafr] at hv
  simp only [Option.getD_some] at hv
  rw [hsplit] at hv
  simp only [hnum, hden] at hv
  cases hb : pyInt (s.bit_rate.getD (.jint 0)) with
  | none =>
    rw [hb] at hv
    exact absurd hv (by simp)
  | some br =>
    rw [hb] at hv
    have hv' := Option.some.inj hv
    rw [← hv']
    by_cases hd0 : den = 0
    · rw [if_pos hd0]
      show (if ¬ den = 0 then (num : ℚ) / (den : ℚ) else 0) = 0
      rw [if_neg (by simp [hd0])]
    · rw [if_neg hd0]
      show (if ¬ den = 0 then (num : ℚ) / (den : ℚ) else 0) = (num : ℚ) / (den : ℚ)
      rw [if_pos hd0]

/-- Stream entry of the C8 witness: the spec's own `"0/0"` edge case. -/
def c8WitnessStream : ProbeStream :=
  { codec_type := some "video", avg_frame_rate := some "0/0" }

/-- What the C8 witness stream parses to. -/
def c8WitnessParsed : VideoStreamMetadata :=
  { codec_name := "N/A", profile := "N/A", width := 0, height := 0,
    bit_rate := 0, avg_frame_rate := 0, pixel_format := "N/A" }

theorem c8_witness :
    c8WitnessParsed.avg_frame_rate
      = if (0 : ℤ) = 0 then 0 else ((0 : ℤ) : ℚ) / ((0 : ℤ) : ℚ) :=
  c8_frame_rate_guarded_true_division c8WitnessStream "0/0" ['0'] ['0'] 0 0
    c8WitnessParsed rfl (by decide) (by decide) (by decide) (by decide)

/-- A structured text form (JSON document), the target of `model_dump` +
`json.dumps` in the example usage block of `src/main.py`. -/
inductive Json where
  | jnull : Json
  | jstr : String → Json
  | jint : ℤ → Json
  | jrat : ℚ → Json
  | jobj : List (String × Json) → Json

/-- Serialize one raw-tag value. -/
def JValue.toJson : JValue → Json
  | .jstr s => .jstr s
  | .jint n => .jint n
  | .jrat q => .jrat q

/-- Parse one raw-tag value back. -/
def JValue.ofJson : Json → Option JValue
  | .jstr s => some (.jstr s)
  | .jint n => some (.jint n)
  | .jrat q => some (.jrat q)
  | _ => none

/-- Field lookup in a serialized object (first binding wins). -/
def jget (fields : List (String × Json)) (k : String) : Option Json :=
  match fields with
  | [] => none
  | (k2, v) :: rest => if k2 = k then some v else jget rest k

/-- Coerce a serialized value to a string field. -/
def Json.asStr : Json → Option String
  | .jstr s => some s
  | _ => none

/-- Coerce a serialized value to an integer field. -/
def Json.asInt : Json → Option ℤ
  | .jint n => some n
  | _ => none

/-- Coerce a serialized value to a float field. -/
def Json.asRat : Json → Option ℚ
  | .jrat q => some q
  | _ => none

/-- Coerce a serialized value to a nullable string field. -/
def Json.asOptStr : Json → Option (Option String)
  | .jnull => some none
  | .jstr s => some (some s)
  | _ => none

/-- `model_dump` of the video sub-record. -/
def VideoStreamMetadata.model_dump (v : VideoStreamMetadata) : Json :=
  .jobj
    [("codec_name", .jstr v.codec_name),
     ("profile", .jstr v.profile),
     ("width", .jint v.width),
     ("height", .jint v.height),
     ("bit_rate", .jint v.bit_rate),
     ("avg_frame_rate", .jrat v.avg_frame_rate),
     ("pixel_format", .jstr v.pixel_format)]

/-- Schema validation of a serialized video sub-record. -/
def VideoStreamMetadata.model_validate (j : Json) : Option VideoStreamMetadata :=
  match j with
  | .jobj fs => do
    let c ← (jget fs "codec_name").bind Json.asStr
    let p ← (jget fs "profile").bind Json.asStr
    let w ← (jget fs "width").bind Json.asInt
    let h ← (jget fs "height").bind Json.asInt
    let b ← (jget fs "bit_rate").bind Json.asInt
    let a ← (jget fs "avg_frame_rate").bind Json.asRat
    let x ← (jget fs "pixel_format").bind Json.asStr
    some { codec_name := c, profile := p, width := w, height := h,
           bit_rate := b, avg_frame_rate := a, pixel_format := x }
  | _ => none

/-- `model_dump` of the audio sub-record. -/
def AudioStreamMetadata.model_dump (a : AudioStreamMetadata) : Json :=
  .jobj
    [("codec_name", .jstr a.codec_name),
     ("sample_rate", .jint a.sample_rate),
     ("channels", .jint a.channels),
     ("bit_rate", .jint a.bit_rate),
     ("channel_layout", .jstr a.channel_layout)]

/-- Schema validation of a serialized audio sub-record. -/
def AudioStreamMetadata.model_validate (j : Json) : Option AudioStreamMetadata :=
  match j with
  | .jobj fs => do
    let c ← (jget fs "codec_name").bind Json.asStr
    let sr ← (jget fs "sample_rate").bind Json.asInt
    let ch ← (jget fs "channels").bind Json.asInt
    let b ← (jget fs "bit_rate").bind Json.asInt
    let cl ← (jget fs "channel_layout").bind Json.asStr
    some { codec_name := c, sample_rate := sr, channels := ch,
           bit_rate := b, channel_layout := cl }
  | _ => none

/-- Serialization of a nullable string field. -/
def optStrJson : Option String → Json
  | some s => .jstr s
  | none => .jnull

/-- Coerce a serialized value to the nullable video sub-record field. -/
def Json.asOptVideo : Json → Option (Option VideoStreamMetadata)
  | .jnull => some none
  | j => (VideoStreamMetadata.model_validate j).map some

/-- Coerce a serialized value to the nullable audio sub-record field. -/
def Json.asOptAudio : Json → Option (Option AudioStreamMetadata)
  | .jnull => some none
  | j => (AudioStreamMetadata.model_validate j).map some

/-- Parse the raw-tags bag back from its serialized object. -/
def parseRawTags : List (String × Json) → Option (List (String × JValue))
  | [] => some []
  | (k, v) :: rest =>
    match JValue.ofJson v, parseRawTags rest with
    | some jv, some tl => some ((k, jv) :: tl)
    | _, _ => none

/-- `model_dump` of the whole record (the `file_path` field serialized as a
string, as the example usage block does before `json.dumps`). -/
def ContentCreatorMetadata.model_dump (m : ContentCreatorMetadata) : Json :=
  .jobj
    [("file_path", .jstr m.file_path),
     ("filename", .jstr m.filename),
     ("filesize_bytes", .jint m.filesize_bytes),
     ("title", optStrJson m.title),
     ("artist", optStrJson m.artist),
     ("year", optStrJson m.year),
     ("duration_seconds", .jrat m.duration_seconds),
     ("duration_friendly", .jstr m.duration_friendly),
     ("overall_bitrate_kbps", .jint m.overall_bitrate_kbps),
     ("video_stream", match m.video_stream with
       | some v => v.model_dump
       | none => .jnull),
     ("audio_stream", match m.audio_stream with
       | some a => a.model_dump
       | none => .jnull),
     ("raw_tags", .jobj (m.raw_tags.map fun p => (p.1, p.2.toJson)))]

/-- Schema validation (type coercion and required-field checks) of a
serialized record. -/
def ContentCreatorMetadata.model_validate (j : Json) : Option ContentCreatorMetadata :=
  match j with
  | .jobj fs => do
    let fp ← (jget fs "file_path").bind Json.asStr
    let fn ← (jget fs "filename").bind Json.asStr
    let sz ← (jget fs "filesize_bytes").bind Json.asInt
    let ti ← (jget fs "title").bind Json.asOptStr
    let ar ← (jget fs "artist").bind Json.asOptStr
    let yr ← (jget fs "year").bind Json.asOptStr
    let ds ← (jget fs "duration_seconds").bind Json.asRat
    let df ← (jget fs "duration_friendly").bind Json.asStr
    let bk ← (jget fs "overall_bitrate_kbps").bind Json.asInt
    let vs ← (jget fs "video_stream").bind Json.asOptVideo
    let au ← (jget fs "audio_stream").bind Json.asOptAudio
    let rt ← (match jget fs "raw_tags" with
      | some (.jobj tfs) => parseRawTags tfs
      | _ => none)
    some { file_path := fp, filename := fn, filesize_bytes := sz, title := ti,
           artist := ar, year := yr, duration_seconds := ds,
           duration_friendly := df, overall_bitrate_kbps := bk,
           video_stream := vs, audio_stream := au, raw_tags := rt }
  | _ => none

theorem ofJson_toJson (v : JValue) : JValue.ofJson v.toJson = some v := by
  cases v <;> rfl

theorem parseRawTags_roundtrip (l : List (String × JValue)) :
    parseRawTags (l.map fun p => (p.1, p.2.toJson)) = some l := by
  induction l with
  | nil => rfl
  | cons p l ih =>
    rcases p with ⟨k, v⟩
    simp only [List.map_cons, parseRawTags, ofJson_toJson, ih]

theorem validate_dump_aux (fp fn : String) (sz : ℤ) (ti ar yr : Option String)
    (ds : ℚ) (df : String) (bk : ℤ) (vs : Option VideoStreamMetadata)
    (au : Option AudioStreamMetadata) (rt : List (String × JValue)) :
    ContentCreatorMetadata.model_validate
        (ContentCreatorMetadata.model_dump
          ⟨fp, fn, sz, ti, ar, yr, ds, df, bk, vs, au, rt⟩)
      = (parseRawTags (rt.map fun p => (p.1, p.2.toJson))).bind fun rtv =>
          some ⟨fp, fn, sz, ti, ar, yr, ds, df, bk, vs, au, rtv⟩ := by
  cases ti <;> cases ar <;> cases yr <;> cases vs <;> cases au <;> rfl

/-- C9: serializing a record to its structured text form and validating that
text back through the schema returns exactly the original record,
field for field. -/
theorem c9_record_roundtrip (m : ContentCreatorMetadata) :
    ContentCreatorMetadata.model_validate m.model_dump = some m := by
  cases m with
  | mk fp fn sz ti ar yr ds df bk vs au rt =>
    rw [validate_dump_aux, parseRawTags_roundtrip]
    rfl
